import Mathlib

/-
Verification of the REST mock model-provider adapters
(`inspect_ai/model/_providers/mockrest.py` and
`inspect_ai/model/_providers/rest_mockllm.py`) against their design
specification.  Python dictionaries are embedded as association lists of
string keys and JSON values in insertion order; Python `None` is `Option`;
raised exceptions are `Except` errors.
-/

namespace MockRestSpec

/-- A JSON value as produced by Python's json module: null, booleans,
numbers (embedded as rationals), strings, arrays and objects.  Objects are
association lists in insertion order, mirroring Python dicts. -/
inductive JsonVal where
  | null : JsonVal
  | bool (b : Bool) : JsonVal
  | num (q : Rat) : JsonVal
  | str (s : String) : JsonVal
  | arr (elems : List JsonVal) : JsonVal
  | obj (fields : List (String × JsonVal)) : JsonVal

/-- Dictionary lookup: `d.get(k)` in Python, first matching key. -/
def jlookup (d : List (String × JsonVal)) (k : String) : Option JsonVal :=
  match d with
  | [] => none
  | (k', v) :: rest => if k' = k then some v else jlookup rest k

/-- Dictionary lookup with a default: `d.get(k, dflt)` in Python. -/
def jget (d : List (String × JsonVal)) (k : String) (dflt : JsonVal) : JsonVal :=
  (jlookup d k).getD dflt

/-- Python truthiness of a JSON value: `None`, `False`, `0`, `""`, `[]`
and an empty dict are falsy, everything else is truthy. -/
def jsonTruthy : JsonVal → Bool
  | .null => false
  | .bool b => b
  | .num q => q != 0
  | .str s => s != ""
  | .arr l => !l.isEmpty
  | .obj l => !l.isEmpty

/-- View a JSON value as an object; a non-object raises (models Python's
AttributeError when calling `.get` on a non-dict). -/
def asObj : JsonVal → Except String (List (String × JsonVal))
  | .obj d => .ok d
  | _ => .error "AttributeError: get"

/-- View a JSON value as an array; a non-array raises (models Python's
TypeError when iterating a non-list). -/
def asArr : JsonVal → Except String (List JsonVal)
  | .arr l => .ok l
  | _ => .error "TypeError: not iterable"

/-- `d[k] = v` on a Python dict: overwrite in place if the key exists,
else append. -/
def dictSet (d : List (String × JsonVal)) (k : String) (v : JsonVal) :
    List (String × JsonVal) :=
  if (d.map Prod.fst).contains k then
    d.map (fun kv => if kv.1 = k then (k, v) else kv)
  else
    d ++ [(k, v)]

/-- `d.update(args)` on Python dicts: set every key of `args` in turn. -/
def dictUpdate (d args : List (String × JsonVal)) : List (String × JsonVal) :=
  args.foldl (fun acc kv => dictSet acc kv.1 kv.2) d

/-- A chat message from the host framework: a role, a raw content string,
and optionally a `text` accessor (absent models an object without the
attribute, so the adapter's hasattr probe falls back to the content). -/
structure ChatMessage where
  role : String
  content : String
  text : Option String

/-- The content the adapter extracts from a message:
`msg.text if hasattr(msg, "text") else str(msg.content)`. -/
def msgContent (m : ChatMessage) : String :=
  m.text.getD m.content

/-- A tool definition from the host framework: name, description and a
JSON-schema-like parameter object. -/
structure ToolInfo where
  name : String
  description : String
  parameters : JsonVal

/-- Modelled from the spec: the host framework's ToolChoice is either a
string enum (such as "auto" or "none") or a structured selector naming one
tool; the adapter's module docstring documents the structured form as the
JSON object with type "function", so the selector is embedded as a JSON
object (a dict at runtime). -/
inductive ToolChoice where
  | str (s : String) : ToolChoice
  | func (d : List (String × JsonVal)) : ToolChoice

/-- Generation configuration: each parameter is optional and `none`
models a Python `None` field. -/
structure GenerateConfig where
  temperature : Option Rat := none
  max_tokens : Option Int := none
  top_p : Option Rat := none
  top_k : Option Int := none
  stop_seqs : Option (List String) := none
  seed : Option Int := none

/-- The closed set of stop-reason categories of the host framework. -/
inductive StopReason where
  | stop : StopReason
  | length : StopReason
  | toolCalls : StopReason
  | contentFilter : StopReason
  | unknown : StopReason

/-- Modelled from the spec: the host framework's `as_stop_reason`
normalization utility (not part of this repository) maps the raw finish
reason into the closed stop-reason set, anything unrecognized (including a
non-string) mapping to unknown.  No claim depends on the exact table. -/
def asStopReason : JsonVal → StopReason
  | .str "stop" => .stop
  | .str "length" => .length
  | .str "tool_calls" => .toolCalls
  | .str "content_filter" => .contentFilter
  | _ => .unknown

/-- A parsed tool call.  Fields hold the raw JSON values the adapter put
there (Python performs no coercion at this point). -/
structure ToolCall where
  id : JsonVal
  function : JsonVal
  arguments : JsonVal
  type : JsonVal

/-- An assistant chat message reconstructed from a response choice. -/
structure ChatMessageAssistant where
  content : JsonVal
  model : JsonVal
  source : String
  tool_calls : Option (List ToolCall)

/-- One completion choice of the output. -/
structure ChatCompletionChoice where
  message : ChatMessageAssistant
  stop_reason : StopReason

/-- Token usage as forwarded from the response JSON. -/
structure ModelUsage where
  input_tokens : JsonVal
  output_tokens : JsonVal
  total_tokens : JsonVal

/-- The framework-facing result of a generate call. -/
structure ModelOutput where
  model : JsonVal
  choices : List ChatCompletionChoice
  usage : Option ModelUsage
  error : Option String

/-- Modelled from the spec: the host framework's `ModelOutput.from_content`
constructor (not part of this repository) builds an output with a single
assistant-message choice carrying the given content, stop reason and error
field. -/
def ModelOutput.from_content (model : String) (content : JsonVal)
    (stop_reason : StopReason) (error : Option String) : ModelOutput :=
  { model := .str model
    choices := [{ message := { content := content, model := .str model,
                               source := "generate", tool_calls := none }
                  stop_reason := stop_reason }]
    usage := none
    error := error }

/-- The observability record pairing outgoing request and (possibly empty)
incoming response. -/
structure ModelCall where
  request : List (String × JsonVal)
  response : List (String × JsonVal)

/-- The configured state of a MockRestAPI adapter after construction. -/
structure MockRest where
  model_name : String
  base_url : String
  api_key : Option String
  model_args : List (String × JsonVal)

/-- Python truthiness of an optional string: `None` and the empty string
are falsy. -/
def strTruthy : Option String → Bool
  | none => false
  | some s => s != ""

/-- The MockRestAPI constructor.  Modelled from the spec where it leans on
the host framework's ModelAPI base class (not part of this repository):
the base class stores the explicit base_url and api_key parameters on the
instance.  The adapter then falls back to the MOCKREST_BASE_URL and
MOCKREST_API_KEY environment variables (passed here explicitly as
`env_base` and `env_key`) when the stored values are falsy, and raises a
ValueError when no base URL results. -/
def initMockRest (model_name : String) (base_url api_key : Option String)
    (env_base env_key : Option String)
    (model_args : List (String × JsonVal)) : Except String MockRest :=
  let bu := if strTruthy base_url then base_url else env_base
  if strTruthy bu then
    let key := if strTruthy api_key then api_key else env_key
    .ok { model_name := model_name, base_url := bu.getD "",
          api_key := key, model_args := model_args }
  else
    .error ("MockRestAPI requires a base_url. Set it via the base_url " ++
      "parameter or the MOCKREST_BASE_URL environment variable.")

/-- The JSON encoding of one tool definition in the outgoing request. -/
def toolJson (t : ToolInfo) : JsonVal :=
  .obj [("type", .str "function"),
        ("function", .obj [("name", .str t.name),
                           ("description", .str t.description),
                           ("parameters", t.parameters)])]

/-- The model and messages fields every request starts with. -/
def baseFields (modelName : String) (input : List ChatMessage) :
    List (String × JsonVal) :=
  [("model", .str modelName),
   ("messages", .arr (input.map (fun m =>
      .obj [("role", .str m.role), ("content", .str (msgContent m))])))]

/-- The tools field, added only when the tools list is truthy (non-empty). -/
def toolsFields (tools : List ToolInfo) : List (String × JsonVal) :=
  if tools.isEmpty then [] else [("tools", .arr (tools.map toolJson))]

/-- The tool_choice field: absent when null, the string itself for a
string, the object itself for a dict-valued structured selector. -/
def toolChoiceFields : Option ToolChoice → List (String × JsonVal)
  | none => []
  | some (.str s) => [("tool_choice", .str s)]
  | some (.func d) => [("tool_choice", .obj d)]

/-- An optional rational-valued request field, present iff configured. -/
def optNum (k : String) : Option Rat → List (String × JsonVal)
  | some x => [(k, .num x)]
  | none => []

/-- An optional integer-valued request field, present iff configured. -/
def optInt (k : String) : Option Int → List (String × JsonVal)
  | some x => [(k, .num (x : Rat))]
  | none => []

/-- An optional string-list request field, present iff configured. -/
def optStrList (k : String) : Option (List String) → List (String × JsonVal)
  | some l => [(k, .arr (l.map JsonVal.str))]
  | none => []

/-- The generation parameter fields, each present iff its config field is
not null, in the source's insertion order. -/
def configFields (c : GenerateConfig) : List (String × JsonVal) :=
  optNum "temperature" c.temperature ++
  optInt "max_tokens" c.max_tokens ++
  optNum "top_p" c.top_p ++
  optInt "top_k" c.top_k ++
  optStrList "stop" c.stop_seqs ++
  optInt "seed" c.seed

/-- `MockRestAPI._build_request`: model and messages, then tools (if any),
tool_choice (if not null), each set generation parameter, and finally the
extra constructor arguments merged last with last-write-wins. -/
def buildRequest (api : MockRest) (input : List ChatMessage)
    (tools : List ToolInfo) (tc : Option ToolChoice)
    (config : GenerateConfig) : List (String × JsonVal) :=
  dictUpdate
    (baseFields api.model_name input ++ toolsFields tools ++
      toolChoiceFields tc ++ configFields config)
    api.model_args

/-- Parse one entry of a tool_calls array into a structured tool call,
with the source's defaults for missing fields; a raised exception (a
non-dict entry or a non-dict function value) propagates as an error. -/
def parseToolCall (tcv : JsonVal) : Except String ToolCall :=
  match asObj tcv with
  | .error e => .error e
  | .ok tc =>
      match asObj (jget tc "function" (.obj [])) with
      | .error e => .error e
      | .ok fd =>
          .ok { id := jget tc "id" (.str "")
                function := jget fd "name" (.str "")
                arguments := jget fd "arguments" (.obj [])
                type := jget tc "type" (.str "function") }

/-- Parse one choice of the response into a completion choice, attaching
parsed tool calls when the message carries a truthy tool_calls value. -/
def parseChoice (respModel : JsonVal) (cv : JsonVal) :
    Except String ChatCompletionChoice :=
  match asObj cv with
  | .error e => .error e
  | .ok cd =>
      match asObj (jget cd "message" (.obj [])) with
      | .error e => .error e
      | .ok md =>
          if jsonTruthy (jget md "tool_calls" (.arr [])) then
            match asArr (jget md "tool_calls" (.arr [])) with
            | .error e => .error e
            | .ok tcl =>
                match tcl.mapM parseToolCall with
                | .error e => .error e
                | .ok tool_calls =>
                    .ok { message :=
                            { content := jget md "content" (.str "")
                              model := respModel
                              source := "generate"
                              tool_calls := some tool_calls }
                          stop_reason := asStopReason
                            (jget cd "finish_reason" (.str "stop")) }
          else
            .ok { message :=
                    { content := jget md "content" (.str "")
                      model := respModel
                      source := "generate"
                      tool_calls := none }
                  stop_reason := asStopReason
                    (jget cd "finish_reason" (.str "stop")) }

/-- `MockRestAPI._parse_response`: map every choice, then forward the
usage object when it is truthy (a missing or empty usage dict yields no
usage), the model defaulting to the configured model name. -/
def parseResponse (modelName : String) (resp : List (String × JsonVal)) :
    Except String ModelOutput :=
  match asArr (jget resp "choices" (.arr [])) with
  | .error e => .error e
  | .ok cl =>
      match cl.mapM (parseChoice (jget resp "model" (.str modelName))) with
      | .error e => .error e
      | .ok choices =>
          if jsonTruthy (jget resp "usage" .null) then
            match asObj (jget resp "usage" .null) with
            | .error e => .error e
            | .ok uo =>
                .ok { model := jget resp "model" (.str modelName)
                      choices := choices
                      usage := some
                        { input_tokens := jget uo "prompt_tokens" (.num 0)
                          output_tokens :=
                            jget uo "completion_tokens" (.num 0)
                          total_tokens := jget uo "total_tokens" (.num 0) }
                      error := none }
          else
            .ok { model := jget resp "model" (.str modelName)
                  choices := choices
                  usage := none
                  error := none }

/-- The outcome of the HTTP POST as seen by the adapter: either a response
with a status code, a body text, and the result of decoding the body as a
JSON object (an error models `.json()` raising or a non-object body), or a
transport-level failure raised by the HTTP client. -/
inductive HttpOutcome where
  | response (status : Nat) (text : String)
      (json : Except String (List (String × JsonVal))) : HttpOutcome
  | transportError (msg : String) : HttpOutcome

/-- The error output `generate` synthesizes for a provider-side failure:
content is the error string, stop reason unknown, error field set. -/
def errorOutput (modelName msg : String) : ModelOutput :=
  ModelOutput.from_content modelName (.str msg) .unknown (some msg)

/-- `MockRestAPI.generate`: build the request, post it, raise_for_status
(any status outside the 2xx range raises an HTTPStatusError), decode and
parse the body; every raised exception is caught and converted into an
error-carrying output, so the function is total in the outcome. -/
def generate (api : MockRest) (input : List ChatMessage)
    (tools : List ToolInfo) (tc : Option ToolChoice)
    (config : GenerateConfig) (outcome : HttpOutcome) :
    ModelOutput × ModelCall :=
  let req := buildRequest api input tools tc config
  match outcome with
  | .transportError m =>
      (errorOutput api.model_name ("Request error: " ++ m),
       { request := req, response := [] })
  | .response status text json =>
      if 200 ≤ status ∧ status < 300 then
        match json with
        | .error m =>
            (errorOutput api.model_name ("Unexpected error: " ++ m),
             { request := req, response := [] })
        | .ok resp =>
            match parseResponse api.model_name resp with
            | .ok out => (out, { request := req, response := resp })
            | .error m =>
                (errorOutput api.model_name ("Unexpected error: " ++ m),
                 { request := req, response := resp })
      else
        (errorOutput api.model_name
           ("HTTP error " ++ toString status ++ ": " ++ text),
         { request := req, response := [] })

/-- The exceptions the retry classifier distinguishes: an HTTPStatusError
carrying the response status, a transport-level RequestError, or any other
exception. -/
inductive PyException where
  | httpStatusError (status : Nat) (text : String) : PyException
  | requestError (msg : String) : PyException
  | other (msg : String) : PyException

/-- `MockRestAPI.should_retry`: true for status 429 or 5xx and for any
transport error, false otherwise. -/
def shouldRetry : PyException → Bool
  | .httpStatusError status _ => status == 429 || status ≥ 500
  | .requestError _ => true
  | .other _ => false

/-- `MockRestAPI.is_auth_failure`: true only for HTTP status 401. -/
def isAuthFailure : PyException → Bool
  | .httpStatusError status _ => status == 401
  | _ => false

/-- The configured state of the minimal RestMockLLM variant. -/
structure RestMockLLM where
  model_name : String
  base_url : String

/-- The fixed endpoint path the minimal variant posts to. -/
def RestMockLLM.path : String := "/mock-llm-response"

/-- The request body of the minimal variant: only the raw content of the
first message under the key "input"; an empty message list raises
(IndexError), modelled as no body. -/
def RestMockLLM.requestBody (input : List ChatMessage) :
    Option (List (String × JsonVal)) :=
  match input with
  | [] => none
  | msg :: _ => some [("input", .str msg.content)]

/-- `RestMockLLM.generate`: post the first message's content, raise on any
status other than 200, on 200 decode the JSON body and build the output
from its "content" field (a missing field raises a KeyError).  Nothing is
caught, so failures surface as `Except.error`. -/
def RestMockLLM.generate (api : RestMockLLM) (input : List ChatMessage)
    (status : Nat) (text : String)
    (json : Except String (List (String × JsonVal))) :
    Except String ModelOutput :=
  match input with
  | [] => .error "IndexError: list index out of range"
  | _ :: _ =>
      if status ≠ 200 then
        .error ("Error from Mock LLM API: " ++ toString status ++ " - " ++
          text)
      else
        match json with
        | .error m => .error m
        | .ok d =>
            match jlookup d "content" with
            | none => .error "KeyError: content"
            | some c =>
                .ok (ModelOutput.from_content api.model_name c .stop none)

/-! Helper lemmas about association-list lookup and dict update. -/

theorem jlookup_cons (p : String × JsonVal)
    (rest : List (String × JsonVal)) (k : String) :
    jlookup (p :: rest) k =
      if p.1 = k then some p.2 else jlookup rest k := rfl

theorem jlookup_append_left {a : List (String × JsonVal)} {k : String}
    {v : JsonVal} (b : List (String × JsonVal)) (h : jlookup a k = some v) :
    jlookup (a ++ b) k = some v := by
  induction a with
  | nil => simp [jlookup] at h
  | cons hd tl ih =>
      rw [List.cons_append, jlookup_cons]
      rw [jlookup_cons] at h
      by_cases h1 : hd.1 = k
      · rwa [if_pos h1] at h ⊢
      · rw [if_neg h1] at h ⊢
        exact ih h

theorem jlookup_append_right {a : List (String × JsonVal)} {k : String}
    (b : List (String × JsonVal)) (h : jlookup a k = none) :
    jlookup (a ++ b) k = jlookup b k := by
  induction a with
  | nil => simp
  | cons hd tl ih =>
      rw [List.cons_append, jlookup_cons]
      rw [jlookup_cons] at h
      by_cases h1 : hd.1 = k
      · rw [if_pos h1] at h; exact absurd h (by simp)
      · rw [if_neg h1] at h ⊢
        exact ih h

theorem jlookup_eq_none_of_not_mem {a : List (String × JsonVal)}
    {k : String} (h : k ∉ a.map Prod.fst) : jlookup a k = none := by
  induction a with
  | nil => rfl
  | cons hd tl ih =>
      simp only [List.map_cons, List.mem_cons] at h
      push_neg at h
      rw [jlookup_cons, if_neg (fun he => h.1 he.symm)]
      exact ih h.2

theorem jlookup_map_replace {d : List (String × JsonVal)}
    {k k' : String} {v : JsonVal} (h : k' ≠ k) :
    jlookup (d.map fun kv => if kv.1 = k' then (k', v) else kv) k =
      jlookup d k := by
  induction d with
  | nil => rfl
  | cons hd tl ih =>
      rw [List.map_cons, jlookup_cons, jlookup_cons]
      by_cases h1 : hd.1 = k'
      · rw [if_pos h1]
        show (if k' = k then some v else _) = _
        rw [if_neg h, if_neg (h1 ▸ h), ih]
      · rw [if_neg h1, ih]

theorem jlookup_dictSet_ne {d : List (String × JsonVal)}
    {k k' : String} {v : JsonVal} (h : k' ≠ k) :
    jlookup (dictSet d k' v) k = jlookup d k := by
  unfold dictSet
  split
  · exact jlookup_map_replace h
  · cases h' : jlookup d k with
    | some w => exact jlookup_append_left _ h'
    | none =>
        rw [jlookup_append_right _ h', jlookup_cons]
        simp [h, jlookup]

theorem jlookup_dictUpdate_not_mem {args : List (String × JsonVal)}
    {k : String} (d : List (String × JsonVal))
    (h : k ∉ args.map Prod.fst) :
    jlookup (dictUpdate d args) k = jlookup d k := by
  induction args generalizing d with
  | nil => rfl
  | cons hd tl ih =>
      simp only [List.map_cons, List.mem_cons] at h
      push_neg at h
      show jlookup (dictUpdate (dictSet d hd.1 hd.2) tl) k = jlookup d k
      rw [ih _ h.2, jlookup_dictSet_ne (Ne.symm h.1)]

theorem jlookup_baseFields_ne {k : String} (mn : String)
    (input : List ChatMessage) (h1 : k ≠ "model") (h2 : k ≠ "messages") :
    jlookup (baseFields mn input) k = none := by
  unfold baseFields
  rw [jlookup_cons, if_neg (fun he => h1 he.symm),
      jlookup_cons, if_neg (fun he => h2 he.symm)]
  rfl

theorem jlookup_toolsFields_ne {k : String} (tools : List ToolInfo)
    (h : k ≠ "tools") : jlookup (toolsFields tools) k = none := by
  unfold toolsFields
  split
  · rfl
  · rw [jlookup_cons, if_neg (fun he => h he.symm)]
    rfl

theorem jlookup_toolChoiceFields_ne {k : String} (tc : Option ToolChoice)
    (h : k ≠ "tool_choice") : jlookup (toolChoiceFields tc) k = none := by
  match tc with
  | none => rfl
  | some (.str s) =>
      rw [toolChoiceFields, jlookup_cons, if_neg (fun he => h he.symm)]
      rfl
  | some (.func d) =>
      rw [toolChoiceFields, jlookup_cons, if_neg (fun he => h he.symm)]
      rfl

theorem jlookup_optNum_ne {k k' : String} (v : Option Rat) (h : k ≠ k') :
    jlookup (optNum k v) k' = none := by
  cases v with
  | none => rfl
  | some x => rw [optNum, jlookup_cons, if_neg h]; rfl

theorem jlookup_optInt_ne {k k' : String} (v : Option Int) (h : k ≠ k') :
    jlookup (optInt k v) k' = none := by
  cases v with
  | none => rfl
  | some x => rw [optInt, jlookup_cons, if_neg h]; rfl

theorem jlookup_optStrList_ne {k k' : String} (v : Option (List String))
    (h : k ≠ k') : jlookup (optStrList k v) k' = none := by
  cases v with
  | none => rfl
  | some l => rw [optStrList, jlookup_cons, if_neg h]; rfl

theorem jlookup_optNum_self {k : String} (v : Option Rat)
    (rest : List (String × JsonVal)) (h : jlookup rest k = none) :
    jlookup (optNum k v ++ rest) k = v.map (fun x => JsonVal.num x) := by
  cases v with
  | none => simpa [optNum] using h
  | some x => simp [optNum, jlookup_cons]

theorem jlookup_optInt_self {k : String} (v : Option Int)
    (rest : List (String × JsonVal)) (h : jlookup rest k = none) :
    jlookup (optInt k v ++ rest) k =
      v.map (fun x => JsonVal.num (x : Rat)) := by
  cases v with
  | none => simpa [optInt] using h
  | some x => simp [optInt, jlookup_cons]

theorem jlookup_optStrList_self {k : String} (v : Option (List String))
    (rest : List (String × JsonVal)) (h : jlookup rest k = none) :
    jlookup (optStrList k v ++ rest) k =
      v.map (fun l => JsonVal.arr (l.map JsonVal.str)) := by
  cases v with
  | none => simpa [optStrList] using h
  | some l => simp [optStrList, jlookup_cons]

theorem jlookup_configFields_ne {k : String} (c : GenerateConfig)
    (h1 : k ≠ "temperature") (h2 : k ≠ "max_tokens") (h3 : k ≠ "top_p")
    (h4 : k ≠ "top_k") (h5 : k ≠ "stop") (h6 : k ≠ "seed") :
    jlookup (configFields c) k = none := by
  unfold configFields
  simp only [List.append_assoc]
  rw [jlookup_append_right _ (jlookup_optNum_ne _ (Ne.symm h1)),
      jlookup_append_right _ (jlookup_optInt_ne _ (Ne.symm h2)),
      jlookup_append_right _ (jlookup_optNum_ne _ (Ne.symm h3)),
      jlookup_append_right _ (jlookup_optInt_ne _ (Ne.symm h4)),
      jlookup_append_right _ (jlookup_optStrList_ne _ (Ne.symm h5))]
  exact jlookup_optInt_ne _ (Ne.symm h6)

theorem jlookup_request_config (mn : String) (input : List ChatMessage)
    (tools : List ToolInfo) (tc : Option ToolChoice) (c : GenerateConfig)
    {k : String} (hk1 : k ≠ "model") (hk2 : k ≠ "messages")
    (hk3 : k ≠ "tools") (hk4 : k ≠ "tool_choice") :
    jlookup (baseFields mn input ++ toolsFields tools ++
      toolChoiceFields tc ++ configFields c) k =
      jlookup (configFields c) k := by
  simp only [List.append_assoc]
  rw [jlookup_append_right _ (jlookup_baseFields_ne mn input hk1 hk2),
      jlookup_append_right _ (jlookup_toolsFields_ne tools hk3),
      jlookup_append_right _ (jlookup_toolChoiceFields_ne tc hk4)]

theorem configFields_temperature (c : GenerateConfig) :
    jlookup (configFields c) "temperature" =
      c.temperature.map (fun x => JsonVal.num x) := by
  unfold configFields
  simp only [List.append_assoc]
  refine jlookup_optNum_self _ _ ?_
  rw [jlookup_append_right _ (jlookup_optInt_ne _ (by decide)),
      jlookup_append_right _ (jlookup_optNum_ne _ (by decide)),
      jlookup_append_right _ (jlookup_optInt_ne _ (by decide)),
      jlookup_append_right _ (jlookup_optStrList_ne _ (by decide))]
  exact jlookup_optInt_ne _ (by decide)

theorem configFields_max_tokens (c : GenerateConfig) :
    jlookup (configFields c) "max_tokens" =
      c.max_tokens.map (fun x => JsonVal.num (x : Rat)) := by
  unfold configFields
  simp only [List.append_assoc]
  rw [jlookup_append_right _ (jlookup_optNum_ne _ (by decide))]
  refine jlookup_optInt_self _ _ ?_
  rw [jlookup_append_right _ (jlookup_optNum_ne _ (by decide)),
      jlookup_append_right _ (jlookup_optInt_ne _ (by decide)),
      jlookup_append_right _ (jlookup_optStrList_ne _ (by decide))]
  exact jlookup_optInt_ne _ (by decide)

theorem configFields_top_p (c : GenerateConfig) :
    jlookup (configFields c) "top_p" =
      c.top_p.map (fun x => JsonVal.num x) := by
  unfold configFields
  simp only [List.append_assoc]
  rw [jlookup_append_right _ (jlookup_optNum_ne _ (by decide)),
      jlookup_append_right _ (jlookup_optInt_ne _ (by decide))]
  refine jlookup_optNum_self _ _ ?_
  rw [jlookup_append_right _ (jlookup_optInt_ne _ (by decide)),
      jlookup_append_right _ (jlookup_optStrList_ne _ (by decide))]
  exact jlookup_optInt_ne _ (by decide)

theorem configFields_top_k (c : GenerateConfig) :
    jlookup (configFields c) "top_k" =
      c.top_k.map (fun x => JsonVal.num (x : Rat)) := by
  unfold configFields
  simp only [List.append_assoc]
  rw [jlookup_append_right _ (jlookup_optNum_ne _ (by decide)),
      jlookup_append_right _ (jlookup_optInt_ne _ (by decide)),
      jlookup_append_right _ (jlookup_optNum_ne _ (by decide))]
  refine jlookup_optInt_self _ _ ?_
  rw [jlookup_append_right _ (jlookup_optStrList_ne _ (by decide))]
  exact jlookup_optInt_ne _ (by decide)

theorem configFields_stop (c : GenerateConfig) :
    jlookup (configFields c) "stop" =
      c.stop_seqs.map (fun l => JsonVal.arr (l.map JsonVal.str)) := by
  unfold configFields
  simp only [List.append_assoc]
  rw [jlookup_append_right _ (jlookup_optNum_ne _ (by decide)),
      jlookup_append_right _ (jlookup_optInt_ne _ (by decide)),
      jlookup_append_right _ (jlookup_optNum_ne _ (by decide)),
      jlookup_append_right _ (jlookup_optInt_ne _ (by decide))]
  refine jlookup_optStrList_self _ _ ?_
  exact jlookup_optInt_ne _ (by decide)

theorem configFields_seed (c : GenerateConfig) :
    jlookup (configFields c) "seed" =
      c.seed.map (fun x => JsonVal.num (x : Rat)) := by
  unfold configFields
  simp only [List.append_assoc]
  rw [jlookup_append_right _ (jlookup_optNum_ne _ (by decide)),
      jlookup_append_right _ (jlookup_optInt_ne _ (by decide)),
      jlookup_append_right _ (jlookup_optNum_ne _ (by decide)),
      jlookup_append_right _ (jlookup_optInt_ne _ (by decide)),
      jlookup_append_right _ (jlookup_optStrList_ne _ (by decide))]
  cases h : c.seed with
  | none => rfl
  | some x => rw [optInt, jlookup_cons, if_pos rfl]; rfl

/-- C1: for every generate request, the outgoing body's tool_choice key is
absent when tool_choice is null, and otherwise holds the tool_choice
passed through unchanged, whether it is a string or a structured object
naming one tool (provided the extra constructor arguments do not
themselves override the tool_choice key). -/
theorem c1_tool_choice_passthrough (api : MockRest)
    (input : List ChatMessage) (tools : List ToolInfo)
    (config : GenerateConfig)
    (h : "tool_choice" ∉ api.model_args.map Prod.fst) :
    (jlookup (buildRequest api input tools none config) "tool_choice" =
      none)
  ∧ (∀ s, jlookup (buildRequest api input tools (some (.str s)) config)
      "tool_choice" = some (.str s))
  ∧ (∀ d, jlookup (buildRequest api input tools (some (.func d)) config)
      "tool_choice" = some (.obj d)) := by
  unfold buildRequest
  refine ⟨?_, ?_, ?_⟩
  · rw [jlookup_dictUpdate_not_mem _ h]
    simp only [List.append_assoc]
    rw [jlookup_append_right _
          (jlookup_baseFields_ne _ _ (by decide) (by decide)),
        jlookup_append_right _ (jlookup_toolsFields_ne _ (by decide))]
    show jlookup ([] ++ configFields config) "tool_choice" = none
    rw [List.nil_append]
    exact jlookup_configFields_ne _ (by decide) (by decide) (by decide)
      (by decide) (by decide) (by decide)
  · intro s
    rw [jlookup_dictUpdate_not_mem _ h]
    simp only [List.append_assoc]
    rw [jlookup_append_right _
          (jlookup_baseFields_ne _ _ (by decide) (by decide)),
        jlookup_append_right _ (jlookup_toolsFields_ne _ (by decide))]
    exact jlookup_append_left _ rfl
  · intro d
    rw [jlookup_dictUpdate_not_mem _ h]
    simp only [List.append_assoc]
    rw [jlookup_append_right _
          (jlookup_baseFields_ne _ _ (by decide) (by decide)),
        jlookup_append_right _ (jlookup_toolsFields_ne _ (by decide))]
    exact jlookup_append_left _ rfl

/-- Witness for C1 at a concrete adapter and the string choice "auto". -/
theorem c1_tool_choice_passthrough_witness :
    jlookup (buildRequest ⟨"m", "http://x", none, []⟩ [] []
      (some (.str "auto")) {}) "tool_choice" = some (.str "auto") :=
  (c1_tool_choice_passthrough ⟨"m", "http://x", none, []⟩ [] [] {}
    (by simp)).2.1 "auto"

/-- C4: each generation parameter (temperature, max_tokens, top_p, top_k,
stop sequences, seed) appears in the outgoing body under its documented
key iff the config field is non-null, and then holds exactly the
configured value, provided the extra constructor arguments do not
override those keys; the null-check is per field, so zero and the empty
list are still forwarded. -/
theorem c4_config_params (api : MockRest) (input : List ChatMessage)
    (tools : List ToolInfo) (tc : Option ToolChoice)
    (config : GenerateConfig)
    (h : ∀ k ∈ (["temperature", "max_tokens", "top_p", "top_k", "stop",
      "seed"] : List String), k ∉ api.model_args.map Prod.fst) :
    (jlookup (buildRequest api input tools tc config) "temperature" =
      config.temperature.map (fun x => JsonVal.num x))
  ∧ (jlookup (buildRequest api input tools tc config) "max_tokens" =
      config.max_tokens.map (fun x => JsonVal.num (x : Rat)))
  ∧ (jlookup (buildRequest api input tools tc config) "top_p" =
      config.top_p.map (fun x => JsonVal.num x))
  ∧ (jlookup (buildRequest api input tools tc config) "top_k" =
      config.top_k.map (fun x => JsonVal.num (x : Rat)))
  ∧ (jlookup (buildRequest api input tools tc config) "stop" =
      config.stop_seqs.map (fun l => JsonVal.arr (l.map JsonVal.str)))
  ∧ (jlookup (buildRequest api input tools tc config) "seed" =
      config.seed.map (fun x => JsonVal.num (x : Rat))) := by
  unfold buildRequest
  refine ⟨?_, ?_, ?_, ?_, ?_, ?_⟩
  · rw [jlookup_dictUpdate_not_mem _ (h _ (by decide)),
        jlookup_request_config _ _ _ _ _ (by decide) (by decide)
          (by decide) (by decide), configFields_temperature]
  · rw [jlookup_dictUpdate_not_mem _ (h _ (by decide)),
        jlookup_request_config _ _ _ _ _ (by decide) (by decide)
          (by decide) (by decide), configFields_max_tokens]
  · rw [jlookup_dictUpdate_not_mem _ (h _ (by decide)),
        jlookup_request_config _ _ _ _ _ (by decide) (by decide)
          (by decide) (by decide), configFields_top_p]
  · rw [jlookup_dictUpdate_not_mem _ (h _ (by decide)),
        jlookup_request_config _ _ _ _ _ (by decide) (by decide)
          (by decide) (by decide), configFields_top_k]
  · rw [jlookup_dictUpdate_not_mem _ (h _ (by decide)),
        jlookup_request_config _ _ _ _ _ (by decide) (by decide)
          (by decide) (by decide), configFields_stop]
  · rw [jlookup_dictUpdate_not_mem _ (h _ (by decide)),
        jlookup_request_config _ _ _ _ _ (by decide) (by decide)
          (by decide) (by decide), configFields_seed]

/-- Witness for C4 at a concrete adapter with temperature zero, showing
the zero value is still forwarded. -/
theorem c4_config_params_witness :
    jlookup (buildRequest ⟨"m", "http://x", none, []⟩ [] [] none
      { temperature := some 0 }) "temperature" = some (.num 0) :=
  (c4_config_params ⟨"m", "http://x", none, []⟩ [] [] none
    { temperature := some 0 } (by simp)).1

/-- C5: with no extra constructor arguments, a request with one user
message "hello", no tools, null tool_choice and only temperature 0.7 set
produces exactly the body with the model, messages and temperature keys
and nothing else. -/
theorem c5_round_trip (M : String) :
    buildRequest ⟨M, "http://x", none, []⟩
      [{ role := "user", content := "hello", text := some "hello" }]
      [] none { temperature := some (7 / 10 : Rat) } =
      [("model", .str M),
       ("messages",
        .arr [.obj [("role", .str "user"), ("content", .str "hello")]]),
       ("temperature", .num (7 / 10 : Rat))] := rfl

/-- C3: should_retry returns true exactly for HTTP status errors with
status 429 or at least 500 and for transport-level request errors; every
other exception, including any other 4xx status error, yields false. -/
theorem c3_should_retry (ex : PyException) :
    shouldRetry ex = true ↔
      ((∃ s t, ex = .httpStatusError s t ∧ (s = 429 ∨ 500 ≤ s)) ∨
       (∃ m, ex = .requestError m)) := by
  cases ex <;> simp [shouldRetry]

/-- C2: generate never raises on provider-side failures; a transport
error, a non-2xx HTTP status, a JSON decoding failure, and a response
parsing failure each yield a ModelOutput (paired with a ModelCall) whose
content is the corresponding human-readable error string, with stop
reason unknown and the error field set; in particular, an HTTP 503
response produces an output whose error and content start with the text
"HTTP error 503:". -/
theorem c2_generate_error_handling (api : MockRest)
    (input : List ChatMessage) (tools : List ToolInfo)
    (tc : Option ToolChoice) (config : GenerateConfig) :
    (∀ m, (generate api input tools tc config (.transportError m)).1 =
        errorOutput api.model_name ("Request error: " ++ m))
  ∧ (∀ status text json, ¬(200 ≤ status ∧ status < 300) →
      (generate api input tools tc config
        (.response status text json)).1 =
        errorOutput api.model_name
          ("HTTP error " ++ toString status ++ ": " ++ text))
  ∧ (∀ status text m, 200 ≤ status → status < 300 →
      (generate api input tools tc config
        (.response status text (.error m))).1 =
        errorOutput api.model_name ("Unexpected error: " ++ m))
  ∧ (∀ status text resp m, 200 ≤ status → status < 300 →
      parseResponse api.model_name resp = .error m →
      (generate api input tools tc config
        (.response status text (.ok resp))).1 =
        errorOutput api.model_name ("Unexpected error: " ++ m))
  ∧ (∀ msg, (errorOutput api.model_name msg).error = some msg ∧
      (errorOutput api.model_name msg).choices.map
        (fun ch => ch.message.content) = [.str msg] ∧
      (errorOutput api.model_name msg).choices.map
        (fun ch => ch.stop_reason) = [.unknown])
  ∧ (∀ text json, ∃ rest,
      (generate api input tools tc config (.response 503 text json)).1 =
        errorOutput api.model_name ("HTTP error 503:" ++ rest)) := by
  have hstr : ∀ t : String,
      "HTTP error " ++ toString (503 : Nat) ++ ": " ++ t =
        "HTTP error 503:" ++ (" " ++ t) := by
    intro t
    rw [show ("HTTP error " ++ toString (503 : Nat) ++ ": " : String) =
          "HTTP error 503: " from rfl,
        ← String.append_assoc,
        show ("HTTP error 503:" ++ " " : String) = "HTTP error 503: "
          from rfl]
  refine ⟨fun m => rfl, ?_, ?_, ?_, fun msg => ⟨rfl, rfl, rfl⟩, ?_⟩
  · intro status text json h
    simp only [generate]
    rw [if_neg h]
  · intro status text m h1 h2
    simp only [generate]
    rw [if_pos ⟨h1, h2⟩]
  · intro status text resp m h1 h2 hp
    simp only [generate]
    rw [if_pos ⟨h1, h2⟩, hp]
  · intro text json
    refine ⟨" " ++ text, ?_⟩
    simp only [generate]
    rw [if_neg (by decide)]
    show errorOutput api.model_name
      ("HTTP error " ++ toString (503 : Nat) ++ ": " ++ text) = _
    rw [hstr]

/-- Witness for C2: the 503 scenario at a concrete adapter and body. -/
theorem c2_generate_error_handling_witness :
    (generate ⟨"m", "http://x", none, []⟩ [] [] none {}
      (.response 503 "busy" (.ok []))).1 =
      errorOutput "m" "HTTP error 503: busy" :=
  (c2_generate_error_handling ⟨"m", "http://x", none, []⟩ [] [] none
    {}).2.1 503 "busy" (.ok []) (by decide)

/-- C8: construction fails with the configuration error exactly when
neither the explicit base_url parameter nor the environment variable
carries a truthy value, and when the explicit parameter is truthy it
takes precedence over the environment variable. -/
theorem c8_base_url_resolution (name : String)
    (bu key envb envk : Option String)
    (args : List (String × JsonVal)) :
    (strTruthy bu = false → strTruthy envb = false →
      initMockRest name bu key envb envk args =
        .error ("MockRestAPI requires a base_url. Set it via the " ++
          "base_url parameter or the MOCKREST_BASE_URL environment " ++
          "variable."))
  ∧ (strTruthy bu = true → ∀ api,
      initMockRest name bu key envb envk args = .ok api →
      api.base_url = bu.getD "") := by
  constructor
  · intro h1 h2
    unfold initMockRest
    rw [if_neg (by rw [if_neg (by simp [h1]), h2]; simp)]
    rfl
  · intro h1 api hok
    unfold initMockRest at hok
    rw [if_pos (by rw [if_pos h1]; exact h1)] at hok
    cases hok
    show (if strTruthy bu = true then bu else envb).getD "" = bu.getD ""
    rw [if_pos h1]

/-- Witness for C8: missing base URL in both sources raises at
construction. -/
theorem c8_base_url_resolution_witness :
    initMockRest "m" none none none none [] =
      .error ("MockRestAPI requires a base_url. Set it via the " ++
        "base_url parameter or the MOCKREST_BASE_URL environment " ++
        "variable.") :=
  (c8_base_url_resolution "m" none none none none []).1 rfl rfl

/-- C9: the minimal variant posts only the first message's raw content
under the key "input" to the fixed path /mock-llm-response, raises an
exception on every non-200 status, and on a 200 response builds the
output from the JSON body's content field. -/
theorem c9_minimal_variant (api : RestMockLLM) (msg : ChatMessage)
    (rest : List ChatMessage) (status : Nat) (text : String)
    (json : Except String (List (String × JsonVal))) :
    (RestMockLLM.requestBody (msg :: rest) =
      some [("input", .str msg.content)])
  ∧ (RestMockLLM.path = "/mock-llm-response")
  ∧ (status ≠ 200 →
      RestMockLLM.generate api (msg :: rest) status text json =
        .error ("Error from Mock LLM API: " ++ toString status ++ " - " ++
          text))
  ∧ (∀ d c, json = .ok d → jlookup d "content" = some c →
      RestMockLLM.generate api (msg :: rest) 200 text json =
        .ok (ModelOutput.from_content api.model_name c .stop none)) := by
  refine ⟨rfl, rfl, ?_, ?_⟩
  · intro h
    simp [RestMockLLM.generate, h]
  · intro d c hj hc
    subst hj
    simp [RestMockLLM.generate, hc]

/-- Witness for C9: a 500 response from the minimal variant raises. -/
theorem c9_minimal_variant_witness :
    RestMockLLM.generate ⟨"m", "http://x"⟩
      [{ role := "user", content := "hi", text := some "hi" }]
      500 "oops" (.ok []) =
      .error "Error from Mock LLM API: 500 - oops" :=
  (c9_minimal_variant ⟨"m", "http://x"⟩
    { role := "user", content := "hi", text := some "hi" } []
    500 "oops" (.ok [])).2.2.1 (by decide)

/-- C6: each tool_calls entry parses into a structured tool call whose id
defaults to the empty string, whose function name and arguments are read
from the nested function object with empty-string and empty-mapping
defaults, and whose type defaults to "function"; a choice whose message
carries a non-empty tool_calls array yields an assistant message with the
parsed tool calls attached, and the response's choices are exactly the
parsed choices. -/
theorem c6_tool_call_parsing :
    (∀ (tc : List (String × JsonVal)) (out : ToolCall),
        parseToolCall (.obj tc) = .ok out →
        ((jlookup tc "id" = none → out.id = .str "")
       ∧ (jlookup tc "type" = none → out.type = .str "function")
       ∧ (jlookup tc "function" = none →
            out.function = .str "" ∧ out.arguments = .obj [])
       ∧ (∀ fd, jlookup tc "function" = some (.obj fd) →
            ((jlookup fd "name" = none → out.function = .str "")
           ∧ (jlookup fd "arguments" = none → out.arguments = .obj [])
           ∧ (∀ v, jlookup fd "name" = some v → out.function = v)))))
  ∧ (∀ (respModel : JsonVal) (cd md : List (String × JsonVal))
       (tcvs : List JsonVal) (tcs : List ToolCall),
        jlookup cd "message" = some (.obj md) →
        jlookup md "tool_calls" = some (.arr tcvs) →
        tcvs ≠ [] →
        tcvs.mapM parseToolCall = .ok tcs →
        parseChoice respModel (.obj cd) =
          .ok { message := { content := jget md "content" (.str "")
                             model := respModel
                             source := "generate"
                             tool_calls := some tcs }
                stop_reason := asStopReason
                  (jget cd "finish_reason" (.str "stop")) })
  ∧ (∀ (mn : String) (resp : List (String × JsonVal)) (cl : List JsonVal)
       (out : ModelOutput),
        jlookup resp "choices" = some (.arr cl) →
        parseResponse mn resp = .ok out →
        cl.mapM (parseChoice (jget resp "model" (.str mn))) =
          .ok out.choices) := by
  refine ⟨?_, ?_, ?_⟩
  · intro tc out hok
    unfold parseToolCall at hok
    simp only [asObj] at hok
    cases hl : jlookup tc "function" with
    | none =>
        rw [show jget tc "function" (.obj []) = .obj [] by
              simp [jget, hl]] at hok
        simp only [Except.ok.injEq] at hok
        subst hok
        refine ⟨fun h => by simp [jget, h], fun h => by simp [jget, h],
          fun h => ⟨by simp [jget, jlookup], by simp [jget, jlookup]⟩, ?_⟩
        intro fd' hf
        simp at hf
    | some v =>
        rw [show jget tc "function" (.obj []) = v by
              simp [jget, hl]] at hok
        cases v with
        | null => simp at hok
        | bool b => simp at hok
        | num q => simp at hok
        | str s => simp at hok
        | arr l => simp at hok
        | obj fd =>
            simp only [Except.ok.injEq] at hok
            subst hok
            refine ⟨fun h => by simp [jget, h],
              fun h => by simp [jget, h], ?_, ?_⟩
            · intro h
              simp at h
            · intro fd' hf
              simp only [Option.some.injEq, JsonVal.obj.injEq] at hf
              subst hf
              exact ⟨fun h => by simp [jget, h],
                fun h => by simp [jget, h],
                fun w h => by simp [jget, h]⟩
  · intro respModel cd md tcvs tcs h1 h2 hne h3
    obtain ⟨v, vs, rfl⟩ : ∃ v vs, tcvs = v :: vs := by
      cases tcvs with
      | nil => exact absurd rfl hne
      | cons v vs => exact ⟨v, vs, rfl⟩
    unfold parseChoice
    simp only [asObj]
    rw [show jget cd "message" (.obj []) = .obj md by simp [jget, h1]]
    simp only [Except.ok.injEq]
    rw [show jget md "tool_calls" (.arr []) = .arr (v :: vs) by
          simp [jget, h2]]
    rw [if_pos (show jsonTruthy (JsonVal.arr (v :: vs)) = true from rfl)]
    simp only [asArr]
    rw [h3]
  · intro mn resp cl out h1 h2
    unfold parseResponse at h2
    rw [show jget resp "choices" (.arr []) = .arr cl by simp [jget, h1]]
      at h2
    simp only [asArr] at h2
    cases hm : cl.mapM (parseChoice (jget resp "model" (.str mn))) with
    | error e => rw [hm] at h2; simp at h2
    | ok choices =>
        rw [hm] at h2
        simp only [] at h2
        split at h2
        · cases hu : asObj (jget resp "usage" .null) with
          | error e => rw [hu] at h2; simp at h2
          | ok uo =>
              rw [hu] at h2
              simp only [Except.ok.injEq] at h2
              subst h2
              rfl
        · simp only [Except.ok.injEq] at h2
          subst h2
          rfl

/-- Witness for C6: an entry with every field missing gets all four
defaults. -/
theorem c6_tool_call_parsing_witness :
    (⟨.str "", .str "", .obj [], .str "function"⟩ : ToolCall).id =
      .str "" :=
  ((c6_tool_call_parsing.1 []
    ⟨.str "", .str "", .obj [], .str "function"⟩ rfl).1) rfl

/-- C7: a successful parse of a response carrying a non-empty usage
object maps prompt_tokens to input tokens, completion_tokens to output
tokens and total_tokens to total tokens; in particular a 200 response
with usage counts 10, 20, 30 yields exactly those usage fields. -/
theorem c7_usage_mapping :
    (∀ (mn : String) (resp u : List (String × JsonVal))
       (out : ModelOutput),
        parseResponse mn resp = .ok out →
        jlookup resp "usage" = some (.obj u) → u ≠ [] →
        out.usage = some
          { input_tokens := jget u "prompt_tokens" (.num 0)
            output_tokens := jget u "completion_tokens" (.num 0)
            total_tokens := jget u "total_tokens" (.num 0) })
  ∧ (∀ (api : MockRest) (input : List ChatMessage)
       (tools : List ToolInfo) (tc : Option ToolChoice)
       (config : GenerateConfig) (text : String),
        (generate api input tools tc config (.response 200 text
          (.ok [("usage", .obj [("prompt_tokens", .num 10),
                                ("completion_tokens", .num 20),
                                ("total_tokens", .num 30)])]))).1.usage =
          some { input_tokens := .num 10, output_tokens := .num 20,
                 total_tokens := .num 30 }) := by
  constructor
  · intro mn resp u out hok hu hne
    obtain ⟨a, as, rfl⟩ : ∃ a as, u = a :: as := by
      cases u with
      | nil => exact absurd rfl hne
      | cons a as => exact ⟨a, as, rfl⟩
    unfold parseResponse at hok
    cases hcl : asArr (jget resp "choices" (.arr [])) with
    | error e => rw [hcl] at hok; simp at hok
    | ok cl =>
        rw [hcl] at hok
        simp only [] at hok
        cases hm : cl.mapM (parseChoice (jget resp "model" (.str mn)))
          with
        | error e => rw [hm] at hok; simp at hok
        | ok choices =>
            rw [hm] at hok
            simp only [] at hok
            rw [show jget resp "usage" .null = .obj (a :: as) by
                  simp [jget, hu]] at hok
            rw [if_pos (show jsonTruthy (JsonVal.obj (a :: as)) = true
                  from rfl)] at hok
            simp only [asObj, Except.ok.injEq] at hok
            subst hok
            rfl
  · intro api input tools tc config text
    rfl

/-- Witness for C7: concrete usage counts read back from a parse. -/
theorem c7_usage_mapping_witness :
    ({ model := .str "m", choices := [],
       usage := some { input_tokens := .num 10, output_tokens := .num 20,
                       total_tokens := .num 30 },
       error := none } : ModelOutput).usage =
      some { input_tokens := .num 10, output_tokens := .num 20,
             total_tokens := .num 30 } :=
  c7_usage_mapping.1 "m"
    [("usage", .obj [("prompt_tokens", .num 10),
                     ("completion_tokens", .num 20),
                     ("total_tokens", .num 30)])]
    [("prompt_tokens", .num 10), ("completion_tokens", .num 20),
     ("total_tokens", .num 30)]
    { model := .str "m", choices := [],
      usage := some { input_tokens := .num 10, output_tokens := .num 20,
                      total_tokens := .num 30 },
      error := none }
    rfl rfl (by simp)

/-- C10: a 200 response whose JSON object lacks a choices key (or has an
empty choices list), with usage absent or an empty object and no model
key, makes generate return without error a ModelOutput with empty
choices, no usage, the configured model name, and no error field. -/
theorem c10_malformed_success (api : MockRest) (input : List ChatMessage)
    (tools : List ToolInfo) (tc : Option ToolChoice)
    (config : GenerateConfig) (text : String)
    (resp : List (String × JsonVal))
    (hc : jlookup resp "choices" = none ∨
      jlookup resp "choices" = some (.arr []))
    (hu : jlookup resp "usage" = none ∨
      jlookup resp "usage" = some (.obj []))
    (hm : jlookup resp "model" = none) :
    (generate api input tools tc config (.response 200 text (.ok resp))).1
      = { model := .str api.model_name, choices := [], usage := none,
          error := none } := by
  have hchoices : jget resp "choices" (.arr []) = .arr [] := by
    cases hc with
    | inl h => simp [jget, h]
    | inr h => simp [jget, h]
  have husage : jsonTruthy (jget resp "usage" .null) = false := by
    cases hu with
    | inl h => simp [jget, h, jsonTruthy]
    | inr h => simp [jget, h, jsonTruthy]
  have hmodel : jget resp "model" (.str api.model_name) =
      .str api.model_name := by simp [jget, hm]
  have hpr : parseResponse api.model_name resp =
      .ok { model := .str api.model_name, choices := [], usage := none,
            error := none } := by
    unfold parseResponse
    rw [hchoices, hmodel, husage]
    simp [asArr, List.mapM.loop, pure, Except.pure]
  simp only [generate]
  rw [if_pos ⟨by decide, by decide⟩, hpr]

/-- Witness for C10: the empty JSON object as a 200 response body. -/
theorem c10_malformed_success_witness :
    (generate ⟨"m", "http://x", none, []⟩ [] [] none {}
      (.response 200 "" (.ok []))).1 =
      { model := .str "m", choices := [], usage := none, error := none } :=
  c10_malformed_success ⟨"m", "http://x", none, []⟩ [] [] none {} "" []
    (.inl rfl) (.inl rfl) rfl

end MockRestSpec
